/-
Verification of the tactical-panel engine of the Stocking repository.

The development embeds `generate_tactical_panel` from `src/utils.py`
(lines 135-216) together with the small pieces of the dataframe model it
consumes.  Numbers are modelled as exact rationals; the pandas dataframe
is modelled as the list of its rows restricted to the columns the function
reads (`High`, `Low`, `Close`, `Volume`) plus the optional `RSI` column.
String literals are copied verbatim from the source file (they are escaped
with \u sequences because the source text is not ASCII).
-/
import Mathlib

namespace Stocking

/-- One row of the price dataframe: the columns of the yfinance history
that `generate_tactical_panel` reads (`High`, `Low`, `Close`, `Volume`). -/
structure PriceBar where
  high : ℚ
  low : ℚ
  close : ℚ
  volume : ℚ
deriving Repr, DecidableEq

/-- The price/indicator dataframe as consumed by `generate_tactical_panel`:
the ordered rows, and `df['RSI'].iloc[-1]` when the `RSI` column is present
(`none` when the column is absent).  A NaN last RSI value behaves in the
function exactly like the default 50: the only uses are the comparisons
`rsi < 35` and `rsi > 70`, which are false both for NaN and for 50. -/
structure DataFrame where
  bars : List PriceBar
  rsiLast : Option ℚ
deriving Repr, DecidableEq

/-- The options dict built by `get_options_data`, restricted to the single
entry `generate_tactical_panel` reads (`options_data.get('pcr', 1.0)`; the
dict always carries the key when present). -/
structure OptionsData where
  pcr : ℚ
deriving Repr, DecidableEq

/-- The yfinance `info` dict when it is truthy (non-empty).  Each 52-week
field is `none` when the key is missing (`dict.get` returns `None`) or its
value is not a number; in both cases the Python arithmetic on the value
raises `TypeError`, which the embedding reports as `PanelResult.raised`. -/
structure Info where
  fiftyTwoWeekHigh : Option ℚ
  fiftyTwoWeekLow : Option ℚ
deriving Repr, DecidableEq

/-- The `tactical_data` dict returned by `generate_tactical_panel`. -/
structure TacticalData where
  support : ℚ
  resistance : ℚ
  percentile : ℚ
  emotion : String
  state_title : String
  state_desc : String
  actions : List String
deriving Repr, DecidableEq

/-- Outcome of a call to `generate_tactical_panel`: the Python `None`
return, a raised exception, or the returned dict. -/
inductive PanelResult where
  | noPanel
  | raised
  | panel (t : TacticalData)
deriving Repr, DecidableEq

/-- pandas `Series.min` on a nonempty series (the function only applies it
to nonempty windows; the value on `[]` is irrelevant). -/
def listMin : List ℚ → ℚ
  | [] => 0
  | [x] => x
  | x :: y :: xs => min x (listMin (y :: xs))

/-- pandas `Series.max` on a nonempty series. -/
def listMax : List ℚ → ℚ
  | [] => 0
  | [x] => x
  | x :: y :: xs => max x (listMax (y :: xs))

/-- Python `f"{x:.2f}"` applied to the exact rational value: two decimal
digits, rounding to the nearest hundredth. -/
def fmt2 (q : ℚ) : String :=
  let n : ℕ := (round (|q| * 100) : ℤ).toNat
  (if q < 0 then "-" else "") ++ toString (n / 100) ++ "." ++
    (if n % 100 < 10 then "0" else "") ++ toString (n % 100)

/-- Piece of the emotion text for pcr below 0.6 (utils.py line 173). -/
def emoLowPre : String := "PCR\u00e6\u00e4\u00bd ("

/-- Piece of the emotion text for pcr below 0.6 (utils.py line 173). -/
def emoLowSuf : String := ")\u00ef\u00bc\u0152\u00e6\u0153\u0178\u00e6\u0192\u00e8\u00b5\u201e\u00e9\u2021\u2018\u00e5\u00bc\u00ba\u00e7\u0192\u02c6\u00e6\u0160\u00bc\u00e6\u00b3\u00a8\u00e5\u2018\u00e4\u00b8\u0160\u00e6\u00b3\u00a2\u00e5\u0160\u00a8\u00e3\u20ac\u201a"

/-- Piece of the emotion text for pcr above 1.2 (utils.py line 175). -/
def emoHighPre : String := "PCR\u00e5\u00e9\u00ab\u02dc ("

/-- Piece of the emotion text for pcr above 1.2 (utils.py line 175). -/
def emoHighSuf : String := ")\u00ef\u00bc\u0152\u00e5\u00b8\u201a\u00e5\u0153\u00ba\u00e9\u00bf\u00e9\u2122\u00a9\u00e6\u0192\u2026\u00e7\u00bb\u00aa\u00e8\u00be\u0192\u00e9\u2021\u00ef\u00bc\u0152\u00e6\u00b3\u00a8\u00e6\u201e\u00e9\u02dc\u00b2\u00e5\u00ae\u02c6\u00e3\u20ac\u201a"

/-- Piece of the neutral emotion text (utils.py line 177). -/
def emoMidPre : String := "PCR\u00e4\u00b8\u00ad\u00e6\u20ac\u00a7 ("

/-- Piece of the neutral emotion text (utils.py line 177). -/
def emoMidSuf : String := ")\u00ef\u00bc\u0152\u00e6\u0153\u0178\u00e6\u0192\u00e5\u00b8\u201a\u00e5\u0153\u00ba\u00e6\u2014\u00a0\u00e6\u00e7\u00ab\u00af\u00e5\u02c6\u2020\u00e6\u00ad\u00a7\u00e3\u20ac\u201a"

/-- Deep-value state title (utils.py line 181). -/
def deepTitle : String := "\u00e6\u00b7\u00b1\u00e6\u00b0\u00b4\u00e5\u0152\u00ba (\u00e8\u00b6\u2026\u00e8\u00b7\u0152\u00e5\u00b7\u00a6\u00e4\u00be\u00a7)"

/-- Deep-value state description (utils.py line 182). -/
def deepDesc : String := "\u00e8\u201a\u00a1\u00e4\u00bb\u00b7\u00e5\u00a4\u201e\u00e4\u00ba\u00e4\u00b8\u20ac\u00e5\u00b9\u00b4\u00e5\u2020\u2026\u00e7\u0161\u201e\u00e7\u00bb\u00e5\u00af\u00b9\u00e5\u00ba\u2022\u00e9\u0192\u00a8\u00e5\u0152\u00ba\u00e5\u0178\u0178\u00e3\u20ac\u201a\u00e6\u00ad\u00a4\u00e6\u2014\u00b6\u00e5\u2021\u00e7\u00ba\u00bf\u00e5\u00a4\u00a7\u00e6\u00a6\u201a\u00e7\u2021\u00e5\u00a4\u201e\u00e4\u00ba\u00e6\u00bb\u00e5\u00e7\u0161\u201e\u00e6\u00ad\u00bb\u00e5\u2030\u00e7\u0160\u00b6\u00e6\u20ac\u00ef\u00bc\u0152\u00e8\u00b6\u2039\u00e5\u0160\u00bf\u00e6\u0152\u2021\u00e6\u00a0\u2021\u00e5\u00b7\u00b2\u00e5\u00a4\u00b1\u00e6\u2022\u02c6\u00e3\u20ac\u201a"

/-- Deep-value standing directive: no panic selling (utils.py line 184). -/
def actNoPanic : String := "\u011f\u0178\u203a\u00a1\u00ef\u00b8 **\u00e7\u00bb\u00e5\u00af\u00b9\u00e7\u00ba\u00aa\u00e5\u00be\u2039\u00ef\u00bc\u0161** \u00e4\u00b8\u00a5\u00e7\u00a6\u00e5\u0153\u00a8\u00e6\u00ad\u00a4\u00e4\u00bd\u00e7\u00bd\u00ae\u00e6\u00e6\u2026\u0152\u00e6\u20ac\u00a7\u00e6\u00ad\u00a2\u00e6\u0178\u00e6\u02c6\u2013\u00e5\u2030\u00b2\u00e8\u201a\u2030\u00e3\u20ac\u201a"

/-- Deep-value standing directive: distrust trend indicators (utils.py line 185). -/
def actMAFilter : String := "\u011f\u0178\u2019\u00a1 **\u00e5\u2021\u00e7\u00ba\u00bf\u00e8\u00bf\u2021\u00e6\u00bb\u00a4\u00ef\u00bc\u0161** \u00e5\u00b1\u00e8\u201d\u00bd SMA/MACD \u00e7\u0161\u201e\u00e7\u00a9\u00ba\u00e5\u00a4\u00b4\u00e4\u00bf\u00a1\u00e5\u00b7\u00ef\u00bc\u0152\u00e5\u00aa\u00e7\u0153\u2039\u00e5\u00ba\u2022\u00e9\u0192\u00a8\u00e6\u201d\u00af\u00e6\u2019\u2018\u00e3\u20ac\u201a"

/-- Oversold-bounce alert directive (utils.py line 188). -/
def actOversold : String := "\u011f\u0178\u201d\u00a5 **\u00e5\u00bc\u201a\u00e5\u0160\u00a8\u00e6\u00e9\u2020\u2019\u00ef\u00bc\u0161** \u00e6\u0192\u2026\u00e7\u00bb\u00aa\u00e6\u00e5\u00ba\u00a6\u00e8\u00b6\u2026\u00e5\u2013/\u00e6\u0153\u0178\u00e6\u0192\u00e5\u00bc\u201a\u00e5\u0160\u00a8\u00ef\u00bc\u0152\u00e9\u0161\u00e6\u2014\u00b6\u00e5\u00af\u00e8\u0192\u00bd\u00e7\u02c6\u2020\u00e5\u2018\u00e6\u0160\u20ac\u00e6\u0153\u00af\u00e6\u20ac\u00a7\u00e8\u00b6\u2026\u00e8\u00b7\u0152\u00e5\u00e5\u00bc\u00b9\u00e3\u20ac\u201a"

/-- Piece of the deep-value range-trading directive (utils.py line 189). -/
def gridDeepA : String := "\u011f\u0178\u2022\u00b8\u00ef\u00b8 **\u00e7\u00bd\u2018\u00e6\u00a0\u00bc\u00e6\u00bf\u20ac\u00e6\u00b4\u00bb\u00ef\u00bc\u0161** \u00e9\u20ac\u00a2\u00e9\u00ab\u02dc\u00e8\u2021\u00b3 $"

/-- Piece of the deep-value range-trading directive (utils.py line 189). -/
def gridDeepB : String := " \u00e9\u2122\u201e\u00e8\u00bf\u2018\u00e6\u0160\u203a\u00e5\u2021\u00ba\u00e6\u0153\u00ba\u00e5\u0160\u00a8\u00e4\u00bb\u201c\u00ef\u00bc\u0152\u00e5\u203a\u00e8\u00b8\u00a9\u00e8\u2021\u00b3 $"

/-- Piece of the deep-value range-trading directive (utils.py line 189). -/
def gridDeepC : String := " \u00e9\u2122\u201e\u00e8\u00bf\u2018\u00e9\u2021\u00e6\u2013\u00b0\u00e6\u00a5\u00e5\u203a\u00ef\u00bc\u0152\u00e6\u2018\u0160\u00e8\u2013\u201e\u00e5\u00ba\u2022\u00e4\u00bb\u201c\u00e6\u02c6\u00e6\u0153\u00ac\u00e3\u20ac\u201a"

/-- Patient small-probe entry directive (utils.py line 191). -/
def actProbe : String := "\u00e2\u00b3 **\u00e8\u20ac\u00e5\u00bf\u0192\u00e6\u00bd\u0153\u00e4\u00bc\u00ef\u00bc\u0161** \u00e5\u00b3\u00e4\u00be\u00a7\u00e8\u00b6\u2039\u00e5\u0160\u00bf\u00e6\u0153\u00aa\u00e6\u02dc\u00ef\u00bc\u0152\u00e5\u00af\u00e5\u02c6\u00a9\u00e7\u201d\u00a8\u00e6\u00e5\u00b0\u00e4\u00bb\u201c\u00e4\u00bd\u00e5\u0153\u00a8\u00e6\u201d\u00af\u00e6\u2019\u2018\u00e4\u00bd\u00e9\u2122\u201e\u00e8\u00bf\u2018\u00e8\u00af\u2022\u00e9\u201d\u2122\u00ef\u00bc\u0152\u00e9\u2021\u00e4\u00bb\u201c\u00e9\u0153\u20ac\u00e7\u00ad\u2030\u00e5\u00be\u2026\u00e6\u201d\u00be\u00e9\u2021\u00e7\u00aa\u00e7\u00a0\u00b4\u00e3\u20ac\u201a"

/-- Range-bound state title (utils.py line 194). -/
def rangeTitle : String := "\u00e7\u00ae\u00b1\u00e4\u00bd\u201c\u00e9\u0153\u2021\u00e8\u00a1\u00e5\u0152\u00ba (\u00e5\u00a4\u0161\u00e7\u00a9\u00ba\u00e6\u2039\u2030\u00e9\u201d\u00af)"

/-- Range-bound state description (utils.py line 195). -/
def rangeDesc : String := "\u00e8\u201a\u00a1\u00e4\u00bb\u00b7\u00e8\u201e\u00b1\u00e7\u00a6\u00bb\u00e5\u00ba\u2022\u00e9\u0192\u00a8\u00ef\u00bc\u0152\u00e8\u00bf\u203a\u00e5\u2026\u00a5\u00e6\u00a8\u00aa\u00e7\u203a\u02dc\u00e9\u0153\u2021\u00e8\u00a1\u00e8\u201c\u201e\u00e5\u0160\u00bf\u00e9\u02dc\u00b6\u00e6\u00ae\u00b5\u00e3\u20ac\u201a\u00e6\u00ad\u00a4\u00e9\u02dc\u00b6\u00e6\u00ae\u00b5\u00e8\u00bf\u00bd\u00e6\u00b6\u00a8\u00e6\u20ac\u00e8\u00b7\u0152\u00e6\u00e6\u02dc\u201c\u00e4\u00b8\u00a4\u00e5\u00a4\u00b4\u00e6\u2030\u201c\u00e8\u201e\u00b8\u00e3\u20ac\u201a"

/-- Piece of the explicit band directive (utils.py line 197). -/
def bandA : String := "\u011f\u0178\u201c **\u00e6\u02dc\u00e7\u00a1\u00ae\u00e8\u00be\u00b9\u00e7\u2022\u0152\u00ef\u00bc\u0161** \u00e5\u00bd\u201c\u00e5\u2030\u00e8\u00bf\u00e8\u00a1\u0152\u00e5\u0153\u00a8 $"

/-- Piece of the explicit band directive (utils.py line 197). -/
def bandB : String := " - $"

/-- Piece of the explicit band directive (utils.py line 197). -/
def bandC : String := " \u00e7\u00ae\u00b1\u00e4\u00bd\u201c\u00e4\u00b8\u00ad\u00e3\u20ac\u201a"

/-- Buy-near-floor / sell-near-ceiling directive (utils.py line 198). -/
def actGridRange : String := "\u011f\u0178\u2022\u00b8\u00ef\u00b8 **\u00e7\u00bd\u2018\u00e6\u00a0\u00bc\u00e6\u02c6\u02dc\u00e6\u0153\u00af\u00ef\u00bc\u0161** \u00e9\u00a0\u00e8\u00bf\u2018\u00e4\u00b8\u2039\u00e6\u00b2\u00bf\u00e4\u00b9\u00b0\u00e5\u2026\u00a5\u00ef\u00bc\u0152\u00e9\u00a0\u00e8\u00bf\u2018\u00e4\u00b8\u0160\u00e6\u00b2\u00bf\u00e5\u2013\u00e5\u2021\u00ba\u00ef\u00bc\u0152\u00e8\u00b5\u0161\u00e5\u2013\u00e9\u0153\u2021\u00e8\u00a1\u00e5\u00b7\u00ae\u00e4\u00bb\u00b7\u00e3\u20ac\u201a"

/-- Breakout-imminent directive (utils.py line 202). -/
def actBreakout : String := "\u011f\u0178\u0161\u20ac **\u00e7\u00aa\u00e7\u00a0\u00b4\u00e9\u00a2\u201e\u00e8\u00ad\u00a6\u00ef\u00bc\u0161** \u00e8\u201a\u00a1\u00e4\u00bb\u00b7\u00e9\u20ac\u00bc\u00e8\u00bf\u2018\u00e4\u00b8\u0160\u00e6\u00b2\u00bf\u00e4\u00b8\u201d\u00e4\u00bc\u00b4\u00e9\u0161\u00e7\u02c6\u2020\u00e9\u2021\u00ef\u00bc\u0152\u00e8\u2039\u00a5\u00e6\u201d\u00b6\u00e7\u203a\u02dc\u00e6\u0153\u2030\u00e6\u2022\u02c6\u00e7\u00ab\u2122\u00e7\u00a8\u00b3\u00e5\u2039\u00e5\u0160\u203a\u00e4\u00bd\u00ef\u00bc\u0152\u00e7\u00ae\u00b1\u00e4\u00bd\u201c\u00e6\u2030\u201c\u00e5\u00bc\u20ac\u00ef\u00bc\u0152\u00e5\u2021\u2020\u00e5\u00a4\u2021\u00e5\u00b3\u00e4\u00be\u00a7\u00e8\u00bf\u00bd\u00e9\u0161\u00ef\u00bc"

/-- Volume-insufficient caution directive (utils.py line 204). -/
def actCaution : String := "\u00e2\u0161\u00a0\u00ef\u00b8 **\u00e9\u2021\u00e9\u02dc\u00bb\u00e9\u00a2\u201e\u00e8\u00ad\u00a6\u00ef\u00bc\u0161** \u00e9\u20ac\u00bc\u00e8\u00bf\u2018\u00e4\u00b8\u0160\u00e6\u00b2\u00bf\u00e4\u00bd\u2020\u00e9\u2021\u00e8\u0192\u00bd\u00e4\u00b8\u00e8\u00b6\u00b3\u00ef\u00bc\u0152\u00e9\u0161\u00e6\u2014\u00b6\u00e5\u2021\u2020\u00e5\u00a4\u2021\u00e6\u2030\u00a7\u00e8\u00a1\u0152\u00e9\u00ab\u02dc\u00e6\u0160\u203a\u00e3\u20ac\u201a"

/-- High-trend state title (utils.py line 207). -/
def highTitle : String := "\u00e9\u00ab\u02dc\u00e4\u00bd\u00e8\u00b6\u2039\u00e5\u0160\u00bf\u00e5\u0152\u00ba (\u00e5\u00b3\u00e4\u00be\u00a7\u00e5\u0161\u00e5\u00bc\u02c6)"

/-- High-trend state description (utils.py line 208). -/
def highDesc : String := "\u00e8\u201a\u00a1\u00e4\u00bb\u00b7\u00e5\u00a4\u201e\u00e4\u00ba\u00e5\u00bc\u00ba\u00e5\u0160\u00bf\u00e4\u00b8\u0160\u00e5\u2021\u00e9\u20ac\u0161\u00e9\u201c\u00e6\u02c6\u2013\u00e5\u2020\u00e5\u00b2\u00e9\u00ab\u02dc\u00e4\u00bd\u00e3\u20ac\u201a\u00e6\u00ad\u00a4\u00e6\u2014\u00b6\u00e5\u00ba\u201d\u00e9\u00a1\u00ba\u00e5\u0160\u00bf\u00e8\u20ac\u0152\u00e4\u00b8\u00ba\u00ef\u00bc\u0152\u00e8\u00b6\u2039\u00e5\u0160\u00bf\u00e6\u0152\u2021\u00e6\u00a0\u2021\u00e6\u0153\u2030\u00e6\u2022\u02c6\u00e6\u20ac\u00a7\u00e6\u00e9\u00ab\u02dc\u00e3\u20ac\u201a"

/-- Hold-via-moving-average-discipline directive (utils.py line 210). -/
def actHold : String := "\u011f\u0178\u203a\u00a1\u00ef\u00b8 **\u00e5\u00ba\u2022\u00e4\u00bb\u201c\u00e4\u00bf\u00e6\u0160\u00a4\u00ef\u00bc\u0161** \u00e4\u00be\u00e6\u2030\u02dc 20\u00e6\u2014\u00a5/50\u00e6\u2014\u00a5\u00e5\u2021\u00e7\u00ba\u00bf\u00e6\u0152\u00e6\u0153\u2030\u00ef\u00bc\u0152\u00e5\u2021\u00e7\u00ba\u00bf\u00e4\u00b8\u00e7\u00a0\u00b4\u00e4\u00b8\u00e5\u2013\u00e3\u20ac\u201a"

/-- Top-risk / partial-profit-taking warning (utils.py line 212). -/
def actTopRisk : String := "\u00e2\u0161\u00a0\u00ef\u00b8 **\u00e8\u00a7\u00e9\u00a1\u00b6\u00e9\u00a2\u201e\u00e8\u00ad\u00a6\u00ef\u00bc\u0161** RSI\u00e6\u00e5\u00ba\u00a6\u00e8\u00b6\u2026\u00e4\u00b9\u00b0\u00e4\u00b8\u201d\u00e6\u0153\u0178\u00e6\u0192\u00e7\u2039\u201a\u00e7\u0192\u00ad\u00ef\u00bc\u0152\u00e8\u00b0\u00a8\u00e9\u02dc\u00b2\u00e5\u0160\u00a0\u00e9\u20ac\u0178\u00e8\u00b5\u00b6\u00e9\u00a1\u00b6\u00ef\u00bc\u0152\u00e8\u20ac\u0192\u00e8\u2122\u2018\u00e5\u02c6\u2020\u00e6\u2030\u00b9\u00e6\u00ad\u00a2\u00e7\u203a\u02c6\u00e9\u02dc\u00b2\u00e5\u00ae\u02c6\u00e3\u20ac\u201a"

/-- Ride-the-trend directive (utils.py line 214). -/
def actRide : String := "\u011f\u0178\u0152\u0160 **\u00e9\u00a1\u00ba\u00e5\u0160\u00bf\u00e8\u00b7\u0178\u00e8\u00b8\u00aa\u00ef\u00bc\u0161** \u00e8\u00b6\u2039\u00e5\u0160\u00bf\u00e8\u2030\u00af\u00e5\u00a5\u00bd\u00ef\u00bc\u0152\u00e5\u02c6\u2021\u00e5\u2039\u00bf\u00e8\u00bd\u00bb\u00e6\u02dc\u201c\u00e7\u0152\u0153\u00e9\u00a1\u00b6\u00ef\u00bc\u0152\u00e8\u00ae\u00a9\u00e5\u02c6\u00a9\u00e6\u00b6\u00a6\u00e5\u00a5\u201d\u00e8\u00b7\u2018\u00e3\u20ac\u201a"

/-- Emotion narrative, utils.py lines 172-177: three buckets over the
put/call ratio, each embedding the ratio formatted to two decimals. -/
def emotionText (pcr : ℚ) : String :=
  if pcr < 0.6 then emoLowPre ++ (fmt2 pcr ++ emoLowSuf)
  else if pcr > 1.2 then emoHighPre ++ (fmt2 pcr ++ emoHighSuf)
  else emoMidPre ++ (fmt2 pcr ++ emoMidSuf)

/-- Deep-value range-trading directive (utils.py line 189): the f-string
interpolates the resistance first, then the support. -/
def actGridDeep (support_level resistance_level : ℚ) : String :=
  gridDeepA ++ (fmt2 resistance_level ++ (gridDeepB ++ (fmt2 support_level ++ gridDeepC)))

/-- Explicit band directive (utils.py line 197): support, then resistance. -/
def actBand (support_level resistance_level : ℚ) : String :=
  bandA ++ (fmt2 support_level ++ (bandB ++ (fmt2 resistance_level ++ bandC)))

/-- State-machine routing, utils.py lines 179-214: dispatch on the price
percentile and append the directives in source order.  Returns
`(state_title, state_desc, actions)`. -/
def routeActions (price_percentile support_level resistance_level current_price pcr rsi : ℚ)
    (volume_surge : Bool) : String × String × List String :=
  if price_percentile ≤ 25 then
    let a1 := ([] : List String) ++ [actNoPanic]
    let a2 := a1 ++ [actMAFilter]
    let a3 :=
      if pcr < 0.7 ∨ rsi < 35 then
        (a2 ++ [actOversold]) ++ [actGridDeep support_level resistance_level]
      else a2 ++ [actProbe]
    (deepTitle, deepDesc, a3)
  else if 25 < price_percentile ∧ price_percentile ≤ 75 then
    let a1 := ([] : List String) ++ [actBand support_level resistance_level]
    let a2 := a1 ++ [actGridRange]
    let a3 :=
      if current_price ≥ resistance_level * 0.95 then
        if volume_surge then a2 ++ [actBreakout] else a2 ++ [actCaution]
      else a2
    (rangeTitle, rangeDesc, a3)
  else
    let a1 := ([] : List String) ++ [actHold]
    let a2 := if rsi > 70 ∧ pcr < 0.6 then a1 ++ [actTopRisk] else a1 ++ [actRide]
    (highTitle, highDesc, a2)

/-- Line 142: `df['Close'].iloc[-1]` (the dataframe is nonempty here). -/
def currentPrice (bars : List PriceBar) : ℚ :=
  (bars.map PriceBar.close).getLastD 0

/-- Line 146: `df.tail(8)`, the most recent `min 8 n` rows. -/
def recentTactical (bars : List PriceBar) : List PriceBar :=
  bars.drop (bars.length - 8)

/-- Line 147: `recent_tactical['Low'].min()`. -/
def supportLevel (bars : List PriceBar) : ℚ :=
  listMin ((recentTactical bars).map PriceBar.low)

/-- Line 148: `recent_tactical['High'].max()`. -/
def resistanceLevel (bars : List PriceBar) : ℚ :=
  listMax ((recentTactical bars).map PriceBar.high)

/-- Line 161, inner part: `df['Volume'].rolling(20).mean().iloc[-1]`.
pandas yields NaN when fewer than 20 observations exist, modelled as
`none`; otherwise the arithmetic mean of the last 20 volumes. -/
def rollingMean20Last (vols : List ℚ) : Option ℚ :=
  if vols.length < 20 then none
  else some ((vols.drop (vols.length - 20)).sum / 20)

/-- Line 161: `df['Volume'].iloc[-1] > rolling_mean * 1.5`.  A comparison
against NaN is false in Python, so a `none` mean gives `false`. -/
def volumeSurge (vols : List ℚ) : Bool :=
  match rollingMean20Last vols with
  | none => false
  | some m => vols.getLastD 0 > m * 1.5

/-- Line 159: `options_data.get('pcr', 1.0) if options_data else 1.0`. -/
def pcrOf (options_data : Option OptionsData) : ℚ :=
  match options_data with
  | some o => o.pcr
  | none => 1

/-- Line 151: `info.get('fiftyTwoWeekHigh') if info else df['High'].max()`.
When the info dict is truthy the field is used as-is (it may be `None`);
only an absent or empty dict falls back to the full-series maximum. -/
def high52 (bars : List PriceBar) (info : Option Info) : Option ℚ :=
  match info with
  | some i => i.fiftyTwoWeekHigh
  | none => some (listMax (bars.map PriceBar.high))

/-- Line 152: `info.get('fiftyTwoWeekLow') if info else df['Low'].min()`. -/
def low52 (bars : List PriceBar) (info : Option Info) : Option ℚ :=
  match info with
  | some i => i.fiftyTwoWeekLow
  | none => some (listMin (bars.map PriceBar.low))

/-- Lines 142-216 on the defined path, once both 52-week bounds resolved to
numbers: the guard `if high_52w == low_52w: high_52w += 0.01` (line 155),
the percentile formula (line 156), the sentiment text and the routing. -/
def buildPanel (df : DataFrame) (options_data : Option OptionsData)
    (h52 l52 : ℚ) : TacticalData :=
  let current_price := currentPrice df.bars
  let support_level := supportLevel df.bars
  let resistance_level := resistanceLevel df.bars
  let high_52w := if h52 = l52 then h52 + 0.01 else h52
  let price_percentile := (current_price - l52) / (high_52w - l52) * 100
  let pcr := pcrOf options_data
  let rsi := df.rsiLast.getD 50
  let volume_surge := volumeSurge (df.bars.map PriceBar.volume)
  let r := routeActions price_percentile support_level resistance_level
      current_price pcr rsi volume_surge
  { support := support_level
    resistance := resistance_level
    percentile := price_percentile
    emotion := emotionText pcr
    state_title := r.1
    state_desc := r.2.1
    actions := r.2.2 }

/-- utils.py lines 135-216, `generate_tactical_panel(df, options_data, info)`:
`None` on an empty dataframe (line 140); a raise when the info dict is
truthy but a 52-week field is missing or non-numeric (the arithmetic on
`None` at lines 155-156 throws `TypeError`); otherwise the dict. -/
def generate_tactical_panel (df : DataFrame) (options_data : Option OptionsData)
    (info : Option Info) : PanelResult :=
  if df.bars.isEmpty then .noPanel
  else
    match high52 df.bars info, low52 df.bars info with
    | some h52, some l52 => .panel (buildPanel df options_data h52 l52)
    | _, _ => .raised

/-- Percentile of a panel result, when one was produced. -/
def panelPercentile : PanelResult → Option ℚ
  | .panel t => some t.percentile
  | _ => none

/-- Eight-bar window from the spec example: lows 10..3, highs 11..18
(close and volume are irrelevant to the band computation). -/
def exampleBars : List PriceBar :=
  [⟨11, 10, 10, 1⟩, ⟨12, 9, 9, 1⟩, ⟨13, 8, 8, 1⟩, ⟨14, 7, 7, 1⟩,
   ⟨15, 6, 6, 1⟩, ⟨16, 5, 5, 1⟩, ⟨17, 4, 4, 1⟩, ⟨18, 3, 3, 1⟩]

/-- A three-bar series, exercising the short-series band computation. -/
def shortBars3 : List PriceBar :=
  [⟨9, 2, 5, 1⟩, ⟨8, 1, 4, 1⟩, ⟨7, 3, 6, 1⟩]

/-- Minimum of a nonempty list is one of its entries. -/
theorem listMin_mem (l : List ℚ) (h : l ≠ []) : listMin l ∈ l := by
  match l with
  | [x] => simp [listMin]
  | x :: y :: xs =>
    rcases min_choice x (listMin (y :: xs)) with hm | hm
    · rw [listMin, hm]; exact List.mem_cons_self _ _
    · rw [listMin, hm]
      exact List.mem_cons_of_mem _ (listMin_mem (y :: xs) (by simp))

/-- Minimum of a list is a lower bound for its entries. -/
theorem listMin_le (l : List ℚ) : ∀ x ∈ l, listMin l ≤ x := by
  match l with
  | [] => intro x hx; cases hx
  | [x] => intro z hz; rw [List.mem_singleton] at hz; subst hz; simp [listMin]
  | x :: y :: xs =>
    intro z hz
    rw [listMin]
    rcases List.mem_cons.mp hz with hz | hz
    · subst hz; exact min_le_left _ _
    · exact le_trans (min_le_right _ _) (listMin_le (y :: xs) z hz)

/-- Maximum of a nonempty list is one of its entries. -/
theorem listMax_mem (l : List ℚ) (h : l ≠ []) : listMax l ∈ l := by
  match l with
  | [x] => simp [listMax]
  | x :: y :: xs =>
    rcases max_choice x (listMax (y :: xs)) with hm | hm
    · rw [listMax, hm]; exact List.mem_cons_self _ _
    · rw [listMax, hm]
      exact List.mem_cons_of_mem _ (listMax_mem (y :: xs) (by simp))

/-- Maximum of a list is an upper bound for its entries. -/
theorem le_listMax (l : List ℚ) : ∀ x ∈ l, x ≤ listMax l := by
  match l with
  | [] => intro x hx; cases hx
  | [x] => intro z hz; rw [List.mem_singleton] at hz; subst hz; simp [listMax]
  | x :: y :: xs =>
    intro z hz
    rw [listMax]
    rcases List.mem_cons.mp hz with hz | hz
    · subst hz; exact le_max_left _ _
    · exact le_trans (le_listMax (y :: xs) z hz) (le_max_right _ _)

/-- Inversion: a produced panel comes from the defined path, with both
52-week bounds resolved. -/
theorem generate_panel_inv (df : DataFrame) (o : Option OptionsData) (i : Option Info)
    (t : TacticalData) (h : generate_tactical_panel df o i = .panel t) :
    ∃ h52 l52 : ℚ, high52 df.bars i = some h52 ∧ low52 df.bars i = some l52 ∧
      t = buildPanel df o h52 l52 := by
  unfold generate_tactical_panel at h
  split at h
  · cases h
  · cases hh : high52 df.bars i with
    | none => rw [hh] at h; cases h
    | some h52 =>
      cases hl : low52 df.bars i with
      | none => rw [hh, hl] at h; cases h
      | some l52 =>
        rw [hh, hl] at h
        exact ⟨h52, l52, rfl, rfl, (PanelResult.panel.inj h).symm⟩

/-- Support field of the assembled panel. -/
theorem buildPanel_support (df : DataFrame) (o : Option OptionsData) (h52 l52 : ℚ) :
    (buildPanel df o h52 l52).support = supportLevel df.bars := rfl

/-- Resistance field of the assembled panel. -/
theorem buildPanel_resistance (df : DataFrame) (o : Option OptionsData) (h52 l52 : ℚ) :
    (buildPanel df o h52 l52).resistance = resistanceLevel df.bars := rfl

/-- Percentile field of the assembled panel. -/
theorem buildPanel_percentile (df : DataFrame) (o : Option OptionsData) (h52 l52 : ℚ) :
    (buildPanel df o h52 l52).percentile =
      (currentPrice df.bars - l52) / ((if h52 = l52 then h52 + 0.01 else h52) - l52) * 100 := rfl

/-- Emotion field of the assembled panel. -/
theorem buildPanel_emotion (df : DataFrame) (o : Option OptionsData) (h52 l52 : ℚ) :
    (buildPanel df o h52 l52).emotion = emotionText (pcrOf o) := rfl

/-- Actions field of the assembled panel. -/
theorem buildPanel_actions (df : DataFrame) (o : Option OptionsData) (h52 l52 : ℚ) :
    (buildPanel df o h52 l52).actions =
      (routeActions ((currentPrice df.bars - l52) /
          ((if h52 = l52 then h52 + 0.01 else h52) - l52) * 100)
        (supportLevel df.bars) (resistanceLevel df.bars) (currentPrice df.bars)
        (pcrOf o) (df.rsiLast.getD 50) (volumeSurge (df.bars.map PriceBar.volume))).2.2 := rfl

/-- C1: for every price series with at least one bar in which each low is at
most its high, the band computation takes the most recent `min 8 n` bars (a
suffix of the series of that length), returns the minimum low of that window
as support and the maximum high as resistance (so support is at most
resistance, and these are the fields of any produced panel); on the eight-bar
window with lows 10..3 and highs 11..18 it returns support 3 and resistance
18, and a three-bar series is handled without error. -/
theorem band_min8_support_le_resistance :
    (∀ (bars : List PriceBar), bars ≠ [] → (∀ b ∈ bars, b.low ≤ b.high) →
      (recentTactical bars).length = min 8 bars.length ∧
      List.IsSuffix (recentTactical bars) bars ∧
      supportLevel bars ∈ (recentTactical bars).map PriceBar.low ∧
      (∀ x ∈ (recentTactical bars).map PriceBar.low, supportLevel bars ≤ x) ∧
      resistanceLevel bars ∈ (recentTactical bars).map PriceBar.high ∧
      (∀ x ∈ (recentTactical bars).map PriceBar.high, x ≤ resistanceLevel bars) ∧
      supportLevel bars ≤ resistanceLevel bars) ∧
    (∀ (df : DataFrame) (o : Option OptionsData) (i : Option Info) (t : TacticalData),
      generate_tactical_panel df o i = .panel t →
      t.support = supportLevel df.bars ∧ t.resistance = resistanceLevel df.bars) ∧
    supportLevel exampleBars = 3 ∧ resistanceLevel exampleBars = 18 ∧
    supportLevel shortBars3 = 1 ∧ resistanceLevel shortBars3 = 9 := by
  refine ⟨?_, ?_, by decide, by decide, by decide, by decide⟩
  · intro bars hne hlh
    have hlen : (recentTactical bars).length = min 8 bars.length := by
      simp only [recentTactical, List.length_drop]
      omega
    have hsuf : List.IsSuffix (recentTactical bars) bars :=
      ⟨bars.take (bars.length - 8), List.take_append_drop _ _⟩
    have hpos : 0 < bars.length := List.length_pos.mpr hne
    have hrne : recentTactical bars ≠ [] := by
      have : 0 < (recentTactical bars).length := by rw [hlen]; omega
      exact List.length_pos.mp this
    have hsm : supportLevel bars ∈ (recentTactical bars).map PriceBar.low :=
      listMin_mem _ (by simpa using hrne)
    have hrm : resistanceLevel bars ∈ (recentTactical bars).map PriceBar.high :=
      listMax_mem _ (by simpa using hrne)
    refine ⟨hlen, hsuf, hsm, listMin_le _, hrm, le_listMax _, ?_⟩
    obtain ⟨b, hb⟩ := List.exists_mem_of_ne_nil _ hrne
    have hbl : b.low ∈ (recentTactical bars).map PriceBar.low :=
      List.mem_map_of_mem _ hb
    have hbh : b.high ∈ (recentTactical bars).map PriceBar.high :=
      List.mem_map_of_mem _ hb
    exact le_trans (listMin_le _ _ hbl)
      (le_trans (hlh b (hsuf.subset hb)) (le_listMax _ _ hbh))
  · intro df o i t h
    obtain ⟨h52, l52, _, _, ht⟩ := generate_panel_inv df o i t h
    subst ht
    exact ⟨buildPanel_support df o h52 l52, buildPanel_resistance df o h52 l52⟩

/-- Witness for C1: the general statement instantiated at the eight-bar
example window of the spec. -/
theorem band_min8_support_le_resistance_w :
    supportLevel exampleBars ≤ resistanceLevel exampleBars :=
  (band_min8_support_le_resistance.1 exampleBars (by decide)
    (by decide)).2.2.2.2.2.2

/-- C2 counterexample: with one price bar and a truthy metadata dict whose
52-week fields are missing, `generate_tactical_panel` raises (a `TypeError`
on the `None` arithmetic of lines 155-156) instead of falling back to the
full-series extremes and returning a defined result. -/
theorem meta_partial_raises :
    generate_tactical_panel ⟨[⟨10, 5, 7, 100⟩], none⟩ none (some ⟨none, none⟩) =
      PanelResult.raised := rfl

/-- C2 as amended: the full-series fallback for the 52-week bounds is used
exactly when the metadata dict is absent or empty (first conjunct: an absent
dict behaves like one carrying the full-series extremes, and third conjunct:
that path always yields a panel on a nonempty series); when the dict is
truthy but a 52-week field is missing or non-numeric, the function raises
instead of falling back (second conjunct). -/
theorem meta_52w_resolution :
    (∀ (df : DataFrame) (o : Option OptionsData),
      generate_tactical_panel df o none =
        generate_tactical_panel df o
          (some ⟨some (listMax (df.bars.map PriceBar.high)),
                 some (listMin (df.bars.map PriceBar.low))⟩)) ∧
    (∀ (df : DataFrame) (o : Option OptionsData) (i : Info), df.bars ≠ [] →
      i.fiftyTwoWeekHigh = none ∨ i.fiftyTwoWeekLow = none →
      generate_tactical_panel df o (some i) = .raised) ∧
    (∀ (df : DataFrame) (o : Option OptionsData), df.bars ≠ [] →
      ∃ t, generate_tactical_panel df o none = .panel t) := by
  refine ⟨fun df o => rfl, ?_, ?_⟩
  · intro df o i hne hor
    obtain ⟨bars, rl⟩ := df
    cases bars with
    | nil => exact absurd rfl hne
    | cons b bs =>
      obtain ⟨fh, fl⟩ := i
      rcases hor with h | h
      · simp only at h; subst h; cases fl <;> rfl
      · simp only at h; subst h; cases fh <;> rfl
  · intro df o hne
    obtain ⟨bars, rl⟩ := df
    cases bars with
    | nil => exact absurd rfl hne
    | cons b bs => exact ⟨_, rfl⟩

/-- Witness for C2: the raise on a present metadata dict with a missing
52-week low, at a concrete one-bar series. -/
theorem meta_52w_resolution_w :
    generate_tactical_panel ⟨[⟨4, 2, 3, 9⟩], none⟩ none (some ⟨some 4, none⟩) =
      PanelResult.raised :=
  meta_52w_resolution.2.1 ⟨[⟨4, 2, 3, 9⟩], none⟩ none ⟨some 4, none⟩
    (List.cons_ne_nil _ _) (Or.inr rfl)

/-- C3: when the 52-week bounds are present and distinct, the produced
percentile is exactly `(current_close - low) / (high - low) * 100` with no
clamping; at current 50, low 0, high 100 it is exactly 50, and at current
150 with the same bounds it is 150, outside [0, 100]. -/
theorem percentile_unclamped :
    (∀ (df : DataFrame) (o : Option OptionsData) (h52 l52 : ℚ) (t : TacticalData),
      h52 ≠ l52 →
      generate_tactical_panel df o (some ⟨some h52, some l52⟩) = .panel t →
      t.percentile = (currentPrice df.bars - l52) / (h52 - l52) * 100) ∧
    panelPercentile (generate_tactical_panel ⟨[⟨60, 40, 50, 1⟩], none⟩ none
      (some ⟨some 100, some 0⟩)) = some 50 ∧
    panelPercentile (generate_tactical_panel ⟨[⟨60, 40, 150, 1⟩], none⟩ none
      (some ⟨some 100, some 0⟩)) = some 150 := by
  have hmain : ∀ (df : DataFrame) (o : Option OptionsData) (h52 l52 : ℚ)
      (t : TacticalData), h52 ≠ l52 →
      generate_tactical_panel df o (some ⟨some h52, some l52⟩) = .panel t →
      t.percentile = (currentPrice df.bars - l52) / (h52 - l52) * 100 := by
    intro df o h52 l52 t hne h
    obtain ⟨h1, l1, hh, hl, ht⟩ := generate_panel_inv df o _ t h
    simp only [high52] at hh
    simp only [low52] at hl
    cases hh
    cases hl
    subst ht
    rw [buildPanel_percentile, if_neg hne]
  refine ⟨hmain, ?_, ?_⟩
  · have h := hmain ⟨[⟨60, 40, 50, 1⟩], none⟩ none 100 0 _ (by norm_num) rfl
    rw [show panelPercentile (generate_tactical_panel ⟨[⟨60, 40, 50, 1⟩], none⟩
        none (some ⟨some 100, some 0⟩)) =
        some ((buildPanel ⟨[⟨60, 40, 50, 1⟩], none⟩ none 100 0).percentile) from rfl, h]
    rw [show currentPrice (⟨[⟨60, 40, 50, 1⟩], none⟩ : DataFrame).bars = 50 from rfl]
    simp only [Option.some.injEq]
    norm_num
  · have h := hmain ⟨[⟨60, 40, 150, 1⟩], none⟩ none 100 0 _ (by norm_num) rfl
    rw [show panelPercentile (generate_tactical_panel ⟨[⟨60, 40, 150, 1⟩], none⟩
        none (some ⟨some 100, some 0⟩)) =
        some ((buildPanel ⟨[⟨60, 40, 150, 1⟩], none⟩ none 100 0).percentile) from rfl, h]
    rw [show currentPrice (⟨[⟨60, 40, 150, 1⟩], none⟩ : DataFrame).bars = 150 from rfl]
    simp only [Option.some.injEq]
    norm_num

/-- Witness for C3, at the one-bar series with close 50 and bounds 0, 100. -/
theorem percentile_unclamped_w :
    (buildPanel ⟨[⟨60, 40, 50, 1⟩], none⟩ none 100 0).percentile =
      (currentPrice [⟨60, 40, 50, 1⟩] - 0) / (100 - 0) * 100 :=
  percentile_unclamped.1 ⟨[⟨60, 40, 50, 1⟩], none⟩ none 100 0 _ (by norm_num) rfl

/-- C4: when both 52-week bounds are present and equal, the generator does
not raise: it returns a panel (first conjunct), the high bound is first
nudged by the constant 0.01 so the percentile divides by the nonzero
constant 1/100 (second conjunct), and with price, high and low all 100 the
percentile is the finite value 0 (third conjunct). -/
theorem degenerate_range_guard :
    (∀ (df : DataFrame) (o : Option OptionsData) (c : ℚ), df.bars ≠ [] →
      generate_tactical_panel df o (some ⟨some c, some c⟩) =
        .panel (buildPanel df o c c)) ∧
    (∀ (df : DataFrame) (o : Option OptionsData) (c : ℚ),
      (buildPanel df o c c).percentile =
        (currentPrice df.bars - c) / (1 / 100) * 100) ∧
    panelPercentile (generate_tactical_panel ⟨[⟨100, 100, 100, 1⟩], none⟩ none
      (some ⟨some 100, some 100⟩)) = some 0 := by
  have hper : ∀ (df : DataFrame) (o : Option OptionsData) (c : ℚ),
      (buildPanel df o c c).percentile =
        (currentPrice df.bars - c) / (1 / 100) * 100 := by
    intro df o c
    rw [buildPanel_percentile, if_pos rfl]
    norm_num
  refine ⟨?_, hper, ?_⟩
  · intro df o c hne
    obtain ⟨bars, rl⟩ := df
    cases bars with
    | nil => exact absurd rfl hne
    | cons b bs => rfl
  · rw [show panelPercentile (generate_tactical_panel ⟨[⟨100, 100, 100, 1⟩], none⟩
        none (some ⟨some 100, some 100⟩)) =
        some ((buildPanel ⟨[⟨100, 100, 100, 1⟩], none⟩ none 100 100).percentile) from rfl,
      hper]
    rw [show currentPrice (⟨[⟨100, 100, 100, 1⟩], none⟩ : DataFrame).bars = 100 from rfl]
    simp only [Option.some.injEq]
    norm_num

/-- Witness for C4, at the one-bar series with all prices 100 and both
bounds 100. -/
theorem degenerate_range_guard_w :
    generate_tactical_panel ⟨[⟨100, 100, 100, 1⟩], none⟩ none
        (some ⟨some 100, some 100⟩) =
      .panel (buildPanel ⟨[⟨100, 100, 100, 1⟩], none⟩ none 100 100) :=
  degenerate_range_guard.1 ⟨[⟨100, 100, 100, 1⟩], none⟩ none 100 (List.cons_ne_nil _ _)

/-- C9 counterexample: options data present and metadata present but with a
missing 52-week low make the generator raise, so absence of an expected
field is not always absorbed into a default or an absent result. -/
theorem absence_absorption_fails :
    generate_tactical_panel ⟨[⟨8, 4, 6, 50⟩], some 42⟩ (some ⟨0.8⟩)
      (some ⟨some 9, none⟩) = PanelResult.raised := rfl

/-- C9 as amended: an empty price series yields the absent result `None`
rather than a raise; absent options data behaves exactly as a put/call
ratio of 1.0; an absent RSI column behaves exactly as an RSI of 50 — but
(see the counterexample) a present metadata dict with a missing 52-week
field raises rather than being absorbed. -/
theorem absence_defaults :
    (∀ (rl : Option ℚ) (o : Option OptionsData) (i : Option Info),
      generate_tactical_panel ⟨[], rl⟩ o i = .noPanel) ∧
    (∀ (df : DataFrame) (i : Option Info),
      generate_tactical_panel df none i =
        generate_tactical_panel df (some ⟨1⟩) i) ∧
    (∀ (bars : List PriceBar) (o : Option OptionsData) (i : Option Info),
      generate_tactical_panel ⟨bars, none⟩ o i =
        generate_tactical_panel ⟨bars, some 50⟩ o i) :=
  ⟨fun _ _ _ => rfl, fun _ _ => rfl, fun _ _ _ => rfl⟩

/-- C5: a percentile of at most 25 routes to the deep-value state: the
action list starts with the two standing defensive directives (no panic
selling; distrust trend indicators) and then contains the oversold-bounce
alert plus the support/resistance-parameterized range-trading directive
exactly when `pcr < 0.7` or `rsi < 35`, and the patient small-probe
directive otherwise; the spec examples (percentile 20, rsi 40, pcr 1) and
(percentile 20, rsi 30, pcr 1) take the small-probe branch and the
oversold branch respectively. -/
theorem deep_value_routing :
    (∀ (p s r c pcr rsi : ℚ) (vs : Bool), p ≤ 25 →
      routeActions p s r c pcr rsi vs =
        (deepTitle, deepDesc,
          [actNoPanic, actMAFilter] ++
            (if pcr < 0.7 ∨ rsi < 35 then [actOversold, actGridDeep s r]
             else [actProbe]))) ∧
    routeActions 20 1 2 (3/2) 1 40 false =
      (deepTitle, deepDesc, [actNoPanic, actMAFilter, actProbe]) ∧
    routeActions 20 1 2 (3/2) 1 30 false =
      (deepTitle, deepDesc,
        [actNoPanic, actMAFilter, actOversold, actGridDeep 1 2]) := by
  have hmain : ∀ (p s r c pcr rsi : ℚ) (vs : Bool), p ≤ 25 →
      routeActions p s r c pcr rsi vs =
        (deepTitle, deepDesc,
          [actNoPanic, actMAFilter] ++
            (if pcr < 0.7 ∨ rsi < 35 then [actOversold, actGridDeep s r]
             else [actProbe])) := by
    intro p s r c pcr rsi vs hp
    unfold routeActions
    split_ifs <;> rfl
  refine ⟨hmain, ?_, ?_⟩
  · rw [hmain 20 1 2 (3/2) 1 40 false (by norm_num),
      if_neg (by norm_num : ¬ ((1 : ℚ) < 0.7 ∨ (40 : ℚ) < 35))]
    rfl
  · rw [hmain 20 1 2 (3/2) 1 30 false (by norm_num),
      if_pos (Or.inr (by norm_num : (30 : ℚ) < 35))]
    rfl

/-- Witness for C5, at the oversold example (percentile 20, rsi 30, pcr 1). -/
theorem deep_value_routing_w :
    routeActions 20 1 2 (3/2) 1 30 false =
      (deepTitle, deepDesc,
        [actNoPanic, actMAFilter] ++
          (if (1 : ℚ) < 0.7 ∨ (30 : ℚ) < 35 then [actOversold, actGridDeep 1 2]
           else [actProbe])) :=
  deep_value_routing.1 20 1 2 (3/2) 1 30 false (by norm_num)

/-- C6: a percentile strictly above 25 and at most 75 routes to the
range-bound state: the action list starts with a directive stating the
explicit support/resistance band and the buy-near-floor/sell-near-ceiling
directive; exactly one further directive is appended when the current
price is at least 95 percent of the resistance (the breakout-imminent
directive under a volume surge, the volume-insufficient caution
otherwise), and none is appended below that threshold. -/
theorem range_bound_routing :
    ∀ (p s r c pcr rsi : ℚ) (vs : Bool), 25 < p → p ≤ 75 →
      routeActions p s r c pcr rsi vs =
        (rangeTitle, rangeDesc,
          [actBand s r, actGridRange] ++
            (if c ≥ r * 0.95 then (if vs then [actBreakout] else [actCaution])
             else [])) := by
  intro p s r c pcr rsi vs h25 h75
  unfold routeActions
  split_ifs <;>
    first
      | rfl
      | exact absurd (by assumption : p ≤ 25) (not_le.mpr h25)
      | exact absurd ((⟨h25, h75⟩ : 25 < p ∧ p ≤ 75)) (by assumption)

/-- Witness for C6, at percentile 50 with price just under the resistance
threshold (no third directive). -/
theorem range_bound_routing_w :
    routeActions 50 10 20 18 1 50 false =
      (rangeTitle, rangeDesc,
        [actBand 10 20, actGridRange] ++
          (if (18 : ℚ) ≥ 20 * 0.95 then
            (if false then [actBreakout] else [actCaution])
           else [])) :=
  range_bound_routing 50 10 20 18 1 50 false (by norm_num) (by norm_num)

/-- C7: a percentile above 75 routes to the high-trend state: the action
list is the hold-via-moving-average-discipline directive followed by
exactly one of the top-risk/partial-profit-taking warning (when `rsi > 70`
and `pcr < 0.6`) or the ride-the-trend directive; the spec example
(percentile 80, rsi 75, pcr 0.5) includes the top-risk warning. -/
theorem high_trend_routing :
    (∀ (p s r c pcr rsi : ℚ) (vs : Bool), 75 < p →
      routeActions p s r c pcr rsi vs =
        (highTitle, highDesc,
          [actHold] ++
            (if rsi > 70 ∧ pcr < 0.6 then [actTopRisk] else [actRide]))) ∧
    routeActions 80 1 2 2 (1/2) 75 false =
      (highTitle, highDesc, [actHold, actTopRisk]) := by
  have hmain : ∀ (p s r c pcr rsi : ℚ) (vs : Bool), 75 < p →
      routeActions p s r c pcr rsi vs =
        (highTitle, highDesc,
          [actHold] ++
            (if rsi > 70 ∧ pcr < 0.6 then [actTopRisk] else [actRide])) := by
    intro p s r c pcr rsi vs hp
    unfold routeActions
    split_ifs <;>
      first
        | rfl
        | exact absurd (by assumption : p ≤ 25) (by linarith)
        | exact absurd (And.right (by assumption : 25 < p ∧ p ≤ 75)) (by linarith)
  refine ⟨hmain, ?_⟩
  rw [hmain 80 1 2 2 (1/2) 75 false (by norm_num),
    if_pos ⟨by norm_num, by norm_num⟩]
  rfl

/-- Witness for C7, at the spec example percentile 80, rsi 75, pcr 0.5. -/
theorem high_trend_routing_w :
    routeActions 80 1 2 2 (1/2) 75 false =
      (highTitle, highDesc,
        [actHold] ++
          (if (75 : ℚ) > 70 ∧ (1/2 : ℚ) < 0.6 then [actTopRisk] else [actRide])) :=
  high_trend_routing.1 80 1 2 2 (1/2) 75 false (by norm_num)

/-- C8: the emotion narrative of any produced panel is computed from the
put/call ratio alone (first conjunct, for every input); the three buckets
are ratio below 0.6 (bullish-skew text), above 1.2 (bearish/defensive
text) and neutral otherwise, and each text embeds the ratio formatted to
two decimal places between its fixed pieces; `fmt2` renders 0.45, 1.35 and
0.9 as "0.45", "1.35" and "0.90". -/
theorem emotion_from_pcr :
    (∀ (df : DataFrame) (o : Option OptionsData) (i : Option Info)
      (t : TacticalData), generate_tactical_panel df o i = .panel t →
      t.emotion = emotionText (pcrOf o)) ∧
    (∀ q : ℚ, q < 0.6 → emotionText q = emoLowPre ++ (fmt2 q ++ emoLowSuf)) ∧
    (∀ q : ℚ, ¬ q < 0.6 → q > 1.2 →
      emotionText q = emoHighPre ++ (fmt2 q ++ emoHighSuf)) ∧
    (∀ q : ℚ, ¬ q < 0.6 → ¬ q > 1.2 →
      emotionText q = emoMidPre ++ (fmt2 q ++ emoMidSuf)) ∧
    fmt2 (45/100) = "0.45" ∧ fmt2 (135/100) = "1.35" ∧ fmt2 (9/10) = "0.90" := by
  have hfmt : ∀ (q : ℚ) (n : ℕ), ¬ q < 0 → round (q * 100) = (n : ℤ) →
      fmt2 q = "" ++ toString (n / 100) ++ "." ++
        (if n % 100 < 10 then "0" else "") ++ toString (n % 100) := by
    intro q n h0 hr
    rw [fmt2, abs_of_nonneg (not_lt.mp h0), hr, if_neg h0, Int.toNat_natCast]
  refine ⟨?_, ?_, ?_, ?_, ?_, ?_, ?_⟩
  · intro df o i t h
    obtain ⟨h52, l52, _, _, ht⟩ := generate_panel_inv df o i t h
    subst ht
    exact buildPanel_emotion df o h52 l52
  · intro q hq; rw [emotionText, if_pos hq]
  · intro q h1 h2; rw [emotionText, if_neg h1, if_pos h2]
  · intro q h1 h2; rw [emotionText, if_neg h1, if_neg h2]
  · rw [hfmt (45/100) 45 (by norm_num) (by rw [round_eq]; norm_num)]; rfl
  · rw [hfmt (135/100) 135 (by norm_num) (by rw [round_eq]; norm_num)]; rfl
  · rw [hfmt (9/10) 90 (by norm_num) (by rw [round_eq]; norm_num)]; rfl

/-- Witness for C8, at the bullish example ratio 0.45. -/
theorem emotion_from_pcr_w :
    emotionText (45/100) = emoLowPre ++ (fmt2 (45/100) ++ emoLowSuf) :=
  emotion_from_pcr.2.1 (45/100) (by norm_num)

/-- Two strings differing in their first four characters differ. -/
theorem ne_of_take4 (s t : String) (h : ¬ s.data.take 4 = t.data.take 4) :
    s ≠ t :=
  fun e => h (congrArg (fun u => List.take 4 u.data) e)

/-- Taking four characters of an append stays inside a long left part. -/
theorem take4_append_left (a b : String) (h : 4 ≤ a.data.length) :
    (a ++ b).data.take 4 = a.data.take 4 := by
  rw [String.data_append]
  exact List.take_append_of_le_length h

/-- The breakout directive differs from every deep-value range-trading
directive, whatever numbers are interpolated. -/
theorem actBreakout_ne_actGridDeep (a b : ℚ) : actBreakout ≠ actGridDeep a b := by
  apply ne_of_take4
  rw [actGridDeep, take4_append_left _ _ (by decide)]
  decide

/-- The breakout directive differs from every band directive. -/
theorem actBreakout_ne_actBand (a b : ℚ) : actBreakout ≠ actBand a b := by
  apply ne_of_take4
  rw [actBand, take4_append_left _ _ (by decide)]
  decide

/-- Without a volume surge no routing branch emits the breakout directive. -/
theorem actBreakout_not_mem_route (p s r c pcr rsi : ℚ) :
    actBreakout ∉ (routeActions p s r c pcr rsi false).2.2 := by
  have h1 : actBreakout ≠ actNoPanic := by decide
  have h2 : actBreakout ≠ actMAFilter := by decide
  have h3 : actBreakout ≠ actOversold := by decide
  have h4 : actBreakout ≠ actProbe := by decide
  have h5 : actBreakout ≠ actGridRange := by decide
  have h6 : actBreakout ≠ actCaution := by decide
  have h7 : actBreakout ≠ actHold := by decide
  have h8 : actBreakout ≠ actTopRisk := by decide
  have h9 : actBreakout ≠ actRide := by decide
  have hg : ∀ a b : ℚ, actBreakout ≠ actGridDeep a b := actBreakout_ne_actGridDeep
  have hb : ∀ a b : ℚ, actBreakout ≠ actBand a b := actBreakout_ne_actBand
  unfold routeActions
  split_ifs <;> simp_all [List.mem_append]

/-- A rolling mean over fewer than 20 observations is undefined, so the
surge comparison is false. -/
theorem volumeSurge_short (vols : List ℚ) (h : vols.length < 20) :
    volumeSurge vols = false := by
  unfold volumeSurge rollingMean20Last
  rw [if_pos h]

/-- C10: on a series of fewer than 20 bars the 20-period rolling volume
mean is undefined, the volume-surge flag is false, and the
breakout-imminent directive never appears in the produced action list. -/
theorem short_series_no_breakout :
    ∀ (df : DataFrame) (o : Option OptionsData) (i : Option Info),
      df.bars.length < 20 →
      volumeSurge (df.bars.map PriceBar.volume) = false ∧
      (∀ t, generate_tactical_panel df o i = .panel t →
        actBreakout ∉ t.actions) := by
  intro df o i hlen
  have hvs : volumeSurge (df.bars.map PriceBar.volume) = false :=
    volumeSurge_short _ (by simpa using hlen)
  refine ⟨hvs, ?_⟩
  intro t h
  obtain ⟨h52, l52, _, _, ht⟩ := generate_panel_inv df o i t h
  subst ht
  rw [buildPanel_actions, hvs]
  exact actBreakout_not_mem_route _ _ _ _ _ _

/-- Witness for C10, at a concrete one-bar series. -/
theorem short_series_no_breakout_w :
    volumeSurge ((⟨[⟨5, 1, 4, 2⟩], none⟩ : DataFrame).bars.map PriceBar.volume) =
      false :=
  (short_series_no_breakout ⟨[⟨5, 1, 4, 2⟩], none⟩ none none (by norm_num)).1

end Stocking
